import Mathlib

/-!
Verification development for the shdiary-gen markup core.

This file embeds, in Lean, the character-level S-expression reader of
`src/new_sexp.rs`, the semantic resolver of `src/diary_content.rs`, and the
image-resolution pass `handle_image` of `src/main.rs`, and proves properties
of the embedded definitions.

Modelling conventions:
* The byte source (`StringReader` over a `Read` impl) is modelled as a pure
  `List Nat` of the remaining bytes; `chr()` is the head of the list and
  `seek()` drops the head.  The `IOError` variants of the Rust error enums
  are consequently unreachable in the model and are omitted.
* Rust `String` values are modelled as their byte lists (`List Nat`);
  `String::from_utf8` is modelled by an explicit UTF-8 validity check
  (`validUtf8`) that fails with `Utf8Error` exactly when Rust would.
* Machine integers (`u32`) are modelled as `Nat` with explicit `% 2 ^ 32`
  where the Rust arithmetic may wrap.
* The mutual recursion between `parse_expression` and `parse_tuple` is
  bounded by an explicit fuel parameter (the Rust recursion is bounded by
  the input because every recursive call first consumes a byte); the
  top-level entry point supplies fuel `2 * input.length + 2`, which is never
  exhausted, and fuel exhaustion is the `Option.none` result, kept distinct
  from every parse outcome.
-/

namespace Shdiary

/-- The five bytes treated as whitespace throughout `new_sexp.rs`
(`0x20 | 0x09 | 0x0a | 0x0c | 0x0d`, which is also the set accepted by
`u8::is_ascii_whitespace`). -/
def is_ws (c : Nat) : Bool :=
  c = 0x20 || c = 0x09 || c = 0x0a || c = 0x0c || c = 0x0d

/-- Continuation byte test for UTF-8 (`0x80 ..= 0xBF`). -/
def utf8_cont (c : Nat) : Bool := 0x80 ≤ c && c ≤ 0xbf

/-- Model of Rust `String::from_utf8` validity: returns `true` iff the byte
list is valid UTF-8 (per the encoding ranges enforced by Rust std). -/
def validUtf8 : List Nat → Bool
  | [] => true
  | b :: rest =>
    if b < 0x80 then validUtf8 rest
    else if 0xc2 ≤ b && b ≤ 0xdf then
      match rest with
      | c1 :: rest1 => utf8_cont c1 && validUtf8 rest1
      | [] => false
    else if b = 0xe0 then
      match rest with
      | c1 :: c2 :: rest2 => (0xa0 ≤ c1 && c1 ≤ 0xbf) && utf8_cont c2 && validUtf8 rest2
      | _ => false
    else if (0xe1 ≤ b && b ≤ 0xec) || b = 0xee || b = 0xef then
      match rest with
      | c1 :: c2 :: rest2 => utf8_cont c1 && utf8_cont c2 && validUtf8 rest2
      | _ => false
    else if b = 0xed then
      match rest with
      | c1 :: c2 :: rest2 => (0x80 ≤ c1 && c1 ≤ 0x9f) && utf8_cont c2 && validUtf8 rest2
      | _ => false
    else if b = 0xf0 then
      match rest with
      | c1 :: c2 :: c3 :: rest3 =>
        (0x90 ≤ c1 && c1 ≤ 0xbf) && utf8_cont c2 && utf8_cont c3 && validUtf8 rest3
      | _ => false
    else if 0xf1 ≤ b && b ≤ 0xf3 then
      match rest with
      | c1 :: c2 :: c3 :: rest3 =>
        utf8_cont c1 && utf8_cont c2 && utf8_cont c3 && validUtf8 rest3
      | _ => false
    else if b = 0xf4 then
      match rest with
      | c1 :: c2 :: c3 :: rest3 =>
        (0x80 ≤ c1 && c1 ≤ 0x8f) && utf8_cont c2 && utf8_cont c3 && validUtf8 rest3
      | _ => false
    else false

/-- `Expression` from `src/new_sexp.rs` (lines 13-19): tuples, bareword
literals, double-quoted strings and unsigned 32-bit integers.  String
payloads are byte lists; `Integer` carries the `u32` value as a `Nat`. -/
inductive Expression where
  | Tuple (l : List Expression)
  | Literal (s : List Nat)
  | String (s : List Nat)
  | Integer (n : Nat)
deriving Repr

/-- `ParseError` from `src/new_sexp.rs`. -/
inductive ParseError where
  | UnexpectedEOF
  | UnexpectedCharacter (c : Nat)
deriving Repr, DecidableEq

/-- `Error` from `src/new_sexp.rs` (the `IOError` variant is unreachable in
the pure byte-list model and is omitted). -/
inductive Error where
  | Utf8Error
  | ParseError (e : ParseError)
deriving Repr, DecidableEq

/-- `ExpressionOrChr` from `src/new_sexp.rs`: the reader either produced an
expression or hit a bare non-token byte (used to detect a closing paren). -/
inductive ExpressionOrChr where
  | Expression (e : Expression)
  | Chr (c : Nat)
deriving Repr

/-- `SExpParser::roll_up_and_get`: skip whitespace bytes; return the first
non-whitespace byte without consuming it (the returned state still has the
byte as its head); end of input while skipping is `UnexpectedEOF`. -/
def roll_up_and_get : List Nat → Except Error (Nat × List Nat)
  | [] => .error (.ParseError .UnexpectedEOF)
  | c :: rest =>
    if is_ws c then roll_up_and_get rest
    else .ok (c, c :: rest)

/-- `SExpParser::parse_string` (lines 112-143): accumulate bytes until an
unescaped `0x22` quote; a `0x5c` backslash escapes exactly `0x5c` and
`0x22`, any other escaped byte is `UnexpectedCharacter`; end of input before
the closing quote is `UnexpectedEOF`; the accumulated bytes are validated as
UTF-8 at the end.  `acc` is the `result` vector. -/
def parse_string (acc : List Nat) : List Nat → Except Error (Expression × List Nat)
  | [] => .error (.ParseError .UnexpectedEOF)
  | c :: rest =>
    if c = 0x5c then
      match rest with
      | [] =>
        -- after seeking past the backslash the reader is at end of input:
        -- the if-let body is skipped and the while-let loop exits into EOF
        .error (.ParseError .UnexpectedEOF)
      | c2 :: rest2 =>
        if c2 = 0x5c || c2 = 0x22 then parse_string (acc ++ [c2]) rest2
        else .error (.ParseError (.UnexpectedCharacter c2))
    else if c = 0x22 then
      if validUtf8 acc then .ok (.String acc, rest) else .error .Utf8Error
    else parse_string (acc ++ [c]) rest

/-- `SExpParser::parse_number` (lines 145-165): accumulate decimal digits
into a `u32` (wrapping, hence the `% 2 ^ 32`); a non-digit byte terminates
the number without being consumed; end of input inside the digit run falls
out of the while-let loop into `UnexpectedEOF`. -/
def parse_number (result : Nat) : List Nat → Except Error (Expression × List Nat)
  | [] => .error (.ParseError .UnexpectedEOF)
  | c :: rest =>
    if 0x30 ≤ c ∧ c ≤ 0x39 then
      parse_number ((result * 10 + (c - 0x30)) % 2 ^ 32) rest
    else .ok (.Integer result, c :: rest)

/-- `SExpParser::parse_literal` (lines 167-181): starting from the initial
byte, push every byte until an ASCII-whitespace byte is seen (the
whitespace byte is not consumed); bytes that are neither alphanumeric nor
whitespace are pushed too; end of input inside the literal is
`UnexpectedEOF`; the accumulated bytes are validated as UTF-8. -/
def parse_literal (acc : List Nat) : List Nat → Except Error (Expression × List Nat)
  | [] => .error (.ParseError .UnexpectedEOF)
  | c :: rest =>
    if is_ws c then
      if validUtf8 acc then .ok (.Literal acc, c :: rest) else .error .Utf8Error
    else parse_literal (acc ++ [c]) rest

mutual

/-- `SExpParser::parse_expression` (lines 82-92), with fuel: skip
whitespace, consume the first significant byte and dispatch on it: `(`
starts a tuple, `"` a string, a digit a number, an ASCII letter a literal;
any other byte is returned as a bare `Chr`. -/
def parse_expression_fuel : Nat → List Nat → Option (Except Error (ExpressionOrChr × List Nat))
  | 0, _ => none
  | fuel + 1, s =>
    match roll_up_and_get s with
    | .error e => some (.error e)
    | .ok (chr, s1) =>
      let s2 := s1.tail
      if chr = 0x28 then
        match parse_tuple_fuel fuel s2 [] with
        | none => none
        | some (.error e) => some (.error e)
        | some (.ok (e, s3)) => some (.ok (.Expression e, s3))
      else if chr = 0x22 then
        some ((parse_string [] s2).map fun p => (.Expression p.1, p.2))
      else if 0x30 ≤ chr ∧ chr ≤ 0x39 then
        some ((parse_number (chr - 0x30) s2).map fun p => (.Expression p.1, p.2))
      else if (0x61 ≤ chr ∧ chr ≤ 0x7a) ∨ (0x41 ≤ chr ∧ chr ≤ 0x5a) then
        some ((parse_literal [chr] s2).map fun p => (.Expression p.1, p.2))
      else
        some (.ok (.Chr chr, s2))

/-- `SExpParser::parse_tuple` (lines 94-110), with fuel: repeatedly read
expressions, pushing them onto `acc`; a bare `)` closes the tuple, any
other bare byte is `UnexpectedCharacter`. -/
def parse_tuple_fuel : Nat → List Nat → List Expression → Option (Except Error (Expression × List Nat))
  | 0, _, _ => none
  | fuel + 1, s, acc =>
    match parse_expression_fuel fuel s with
    | none => none
    | some (.error e) => some (.error e)
    | some (.ok (.Expression e, s1)) => parse_tuple_fuel fuel s1 (acc ++ [e])
    | some (.ok (.Chr c, s1)) =>
      if c = 0x29 then some (.ok (.Tuple acc, s1))
      else some (.error (.ParseError (.UnexpectedCharacter c)))

end

/-- Entry point corresponding to `parser.parse_expression()` in
`src/main.rs`: run the reader on the full byte list.  The fuel
`2 * s.length + 2` bounds the recursion depth, which the Rust code bounds
by consuming at least one byte per level; a `none` result means the fuel
ran out and never occurs at the inputs considered below (every concrete
evaluation yields `some`). -/
def parse_expression (s : List Nat) : Option (Except Error (ExpressionOrChr × List Nat)) :=
  parse_expression_fuel (2 * s.length + 2) s

/-! ## The semantic resolver of `src/diary_content.rs` -/

/-- `TextItem` from `src/diary_content.rs` (lines 69-76); the `PostLink`
triple is `(u32, u32, u32)`. -/
inductive TextItem where
  | RawString (s : List Nat)
  | Bold (s : List Nat)
  | WebLink (title href : List Nat)
  | PostLink (year month day : Nat)
  | Code (s : List Nat)
deriving Repr

/-- `ImageItem<T>` from `src/diary_content.rs`: an image payload plus an
optional caption. -/
structure ImageItem (T : Type) where
  data : T
  caption : Option (List Nat)
deriving Repr

/-- `Item<T>` from `src/diary_content.rs` (lines 57-63); `Images` inlines
the `Images<T>` struct (title plus image entries). -/
inductive Item (T : Type) where
  | Text (t : List TextItem)
  | List (l : List (Item T))
  | Header (s : List Nat)
  | Images (title : List Nat) (items : List (ImageItem T))
deriving Repr

/-- `Document<T>` from `src/diary_content.rs`. -/
structure Document (T : Type) where
  contents : List (Item T)
deriving Repr

/-- `SourceItem = Item<String>` with strings as byte lists. -/
abbrev SourceItem := Item (List Nat)

/-- `SourceDoucument = Document<String>` (sic, the source misspells it). -/
abbrev SourceDoucument := Document (List Nat)

/-- `SyntaxError` from `src/diary_content.rs` (lines 104-110).  Note that
the `MissingOperator` variant exists but, as proved below, is never
produced: the helper `missing_operator()` returns `IllegalElement`. -/
inductive SyntaxError where
  | IllegalElement
  | MissingOperator
  | UnknownOperator (name : List Nat)
  | OperandMismatch
deriving Repr, DecidableEq

/-- `diary_content::Error` (the `IOError` variant is unreachable in the
pure model and omitted). -/
inductive DiaryError where
  | Utf8Error
  | ParseError (e : ParseError)
  | SyntaxError (e : SyntaxError)
deriving Repr, DecidableEq

/-- `missing_operator()` (lines 266-268): despite its name it returns
`SyntaxError::IllegalElement`, exactly as the source does. -/
def missing_operator {T : Type} : Except DiaryError T :=
  .error (.SyntaxError .IllegalElement)

/-- `illegal_element()` (lines 270-272). -/
def illegal_element {T : Type} : Except DiaryError T :=
  .error (.SyntaxError .IllegalElement)

/-- `unknown_operator(name)` (lines 274-276). -/
def unknown_operator {T : Type} (name : List Nat) : Except DiaryError T :=
  .error (.SyntaxError (.UnknownOperator name))

/-- `operand_mismatch()` (lines 278-280). -/
def operand_mismatch {T : Type} : Except DiaryError T :=
  .error (.SyntaxError .OperandMismatch)

/-- ASCII byte lists of the dispatch keywords. -/
def kw_h : List Nat := [104]

/-- `"header"` as bytes. -/
def kw_header : List Nat := [104, 101, 97, 100, 101, 114]

/-- `"txt"` as bytes. -/
def kw_txt : List Nat := [116, 120, 116]

/-- `"text"` as bytes. -/
def kw_text : List Nat := [116, 101, 120, 116]

/-- `"li"` as bytes. -/
def kw_li : List Nat := [108, 105]

/-- `"list"` as bytes. -/
def kw_list : List Nat := [108, 105, 115, 116]

/-- `"img"` as bytes. -/
def kw_img : List Nat := [105, 109, 103]

/-- `"image"` as bytes. -/
def kw_image : List Nat := [105, 109, 97, 103, 101]

/-- `"a"` as bytes. -/
def kw_a : List Nat := [97]

/-- `"b"` as bytes. -/
def kw_b : List Nat := [98]

/-- `"p"` as bytes. -/
def kw_p : List Nat := [112]

/-- `"code"` as bytes. -/
def kw_code : List Nat := [99, 111, 100, 101]

/-- `parse_header`, expanded from the `parse_diary_func!` macro
(`src/diary_content.rs` lines 147-153): pull exactly one `String` operand
(`get_rand!` with `operand_mismatch` when the iterator is exhausted and
`illegal_element` on a wrong variant), then require the iterator to be
exhausted (`operand_mismatch` otherwise). -/
def parse_header (rand : List Expression) : Except DiaryError SourceItem :=
  match rand with
  | [] => operand_mismatch
  | .String s :: rest =>
    match rest with
    | [] => .ok (.Header s)
    | _ :: _ => operand_mismatch
  | _ :: _ => illegal_element

/-- `parse_weblink` (lines 181-187): exactly two `String` operands. -/
def parse_weblink (rand : List Expression) : Except DiaryError TextItem :=
  match rand with
  | [] => operand_mismatch
  | .String title :: rest =>
    (match rest with
     | [] => operand_mismatch
     | .String href :: rest2 =>
       match rest2 with
       | [] => .ok (.WebLink title href)
       | _ :: _ => operand_mismatch
     | _ :: _ => illegal_element)
  | _ :: _ => illegal_element

/-- `parse_bold` (lines 189-195): exactly one `String` operand. -/
def parse_bold (rand : List Expression) : Except DiaryError TextItem :=
  match rand with
  | [] => operand_mismatch
  | .String txt :: rest =>
    match rest with
    | [] => .ok (.Bold txt)
    | _ :: _ => operand_mismatch
  | _ :: _ => illegal_element

/-- `parse_post` (lines 197-203): exactly three `Integer` operands. -/
def parse_post (rand : List Expression) : Except DiaryError TextItem :=
  match rand with
  | [] => operand_mismatch
  | .Integer year :: rest =>
    (match rest with
     | [] => operand_mismatch
     | .Integer month :: rest2 =>
       (match rest2 with
        | [] => operand_mismatch
        | .Integer day :: rest3 =>
          match rest3 with
          | [] => .ok (.PostLink year month day)
          | _ :: _ => operand_mismatch
        | _ :: _ => illegal_element)
     | _ :: _ => illegal_element)
  | _ :: _ => illegal_element

/-- `parse_code` (lines 205-211): exactly one `String` operand. -/
def parse_code (rand : List Expression) : Except DiaryError TextItem :=
  match rand with
  | [] => operand_mismatch
  | .String s :: rest =>
    match rest with
    | [] => .ok (.Code s)
    | _ :: _ => operand_mismatch
  | _ :: _ => illegal_element

/-- `parse_text_item` (lines 159-179): a tuple dispatches on its operator
literal (`Application::rator` yields the first element when it is a
`Literal`, otherwise the `missing_operator` path is taken); a bare `String`
is a raw span; anything else is `illegal_element`. -/
def parse_text_item : Expression → Except DiaryError TextItem
  | .Tuple t =>
    (match t with
     | [] => missing_operator
     | rator :: rand =>
       match rator with
       | .Literal l =>
         if l = kw_a then parse_weblink rand
         else if l = kw_b then parse_bold rand
         else if l = kw_p then parse_post rand
         else if l = kw_code then parse_code rand
         else unknown_operator l
       | _ => missing_operator)
  | .String s => .ok (.RawString s)
  | _ => illegal_element

/-- The `rand.map(parse_text_item).collect::<ParseResult<Text>>()` step of
`parse_text` (line 156): left-to-right, short-circuiting on the first
error, exactly like `collect` on an iterator of `Result`s. -/
def parse_text_items : List Expression → Except DiaryError (List TextItem)
  | [] => .ok []
  | e :: rest =>
    match parse_text_item e with
    | .error err => .error err
    | .ok i =>
      match parse_text_items rest with
      | .error err => .error err
      | .ok is => .ok (i :: is)

/-- `parse_text` (lines 155-157). -/
def parse_text (rand : List Expression) : Except DiaryError SourceItem :=
  (parse_text_items rand).map .Text

/-- `parse_image_items` (lines 246-256): each image entry is a `Tuple`
whose first element must be a `String` path (`operand_mismatch` when the
tuple is empty, `illegal_element` on a wrong variant); the optional second
element, when present, must be a `String` caption (`IllegalElement`
otherwise); elements past the second are ignored by the source. -/
def parse_image_items : Expression → Except DiaryError (ImageItem (List Nat))
  | .Tuple t =>
    (match t with
     | [] => operand_mismatch
     | p :: rest =>
       match p with
       | .String path =>
         (match rest with
          | [] => .ok ⟨path, none⟩
          | c :: _ =>
            match c with
            | .String caption => .ok ⟨path, some caption⟩
            | _ => .error (.SyntaxError .IllegalElement))
       | _ => illegal_element)
  | _ => illegal_element

/-- The `rand.map(parse_image_items).collect()` step of `parse_image`. -/
def parse_image_list : List Expression → Except DiaryError (List (ImageItem (List Nat)))
  | [] => .ok []
  | e :: rest =>
    match parse_image_items e with
    | .error err => .error err
    | .ok i =>
      match parse_image_list rest with
      | .error err => .error err
      | .ok is => .ok (i :: is)

/-- `parse_image` (lines 238-244): the first operand must be a `String`
gallery title (`get_rand_diary!`), the remaining operands are image
entries. -/
def parse_image (rand : List Expression) : Except DiaryError SourceItem :=
  match rand with
  | [] => operand_mismatch
  | t :: rest =>
    match t with
    | .String title => (parse_image_list rest).map fun items => .Images title items
    | _ => illegal_element

mutual

/-- `parse_list_item` (lines 217-236): same shape as `parse_top_expr` but
the dispatch table has only `txt`/`text`, `li`/`list` and `img`/`image` —
in particular no `h`/`header`.  The `li`/`list` branch inlines
`parse_list = collect ∘ map parse_list_item` followed by `SourceItem::List`. -/
def parse_list_item : Expression → Except DiaryError SourceItem
  | .Tuple t =>
    (match t with
     | [] => missing_operator
     | rator :: rand =>
       match rator with
       | .Literal l =>
         if l = kw_txt ∨ l = kw_text then parse_text rand
         else if l = kw_li ∨ l = kw_list then (parse_list_collect rand).map .List
         else if l = kw_img ∨ l = kw_image then parse_image rand
         else unknown_operator l
       | _ => missing_operator)
  | .String s => .ok (.Text [.RawString s])
  | _ => illegal_element

/-- The `rand.map(parse_list_item).collect::<ParseResult<Vec<SourceItem>>>()`
step of `parse_list` (lines 213-215). -/
def parse_list_collect : List Expression → Except DiaryError (List SourceItem)
  | [] => .ok []
  | e :: rest =>
    match parse_list_item e with
    | .error err => .error err
    | .ok i =>
      match parse_list_collect rest with
      | .error err => .error err
      | .ok is => .ok (i :: is)

end

/-- `parse_list` (lines 213-215): collect the items and wrap them in
`SourceItem::List`. -/
def parse_list (rand : List Expression) : Except DiaryError SourceItem :=
  (parse_list_collect rand).map .List

/-- `parse_top_expr` (lines 125-145): a tuple dispatches on its operator
literal over the full keyword table; a bare `String` becomes an implicit
one-span text item; anything else is `illegal_element`.  An empty tuple,
or one whose head is not a `Literal`, takes the `missing_operator` path. -/
def parse_top_expr : Expression → Except DiaryError SourceItem
  | .Tuple t =>
    (match t with
     | [] => missing_operator
     | rator :: rand =>
       match rator with
       | .Literal l =>
         if l = kw_h ∨ l = kw_header then parse_header rand
         else if l = kw_txt ∨ l = kw_text then parse_text rand
         else if l = kw_li ∨ l = kw_list then parse_list rand
         else if l = kw_img ∨ l = kw_image then parse_image rand
         else unknown_operator l
       | _ => missing_operator)
  | .String s => .ok (.Text [.RawString s])
  | _ => illegal_element

/-- `parse_top_list` (lines 121-123). -/
def parse_top_list : List Expression → Except DiaryError (List SourceItem)
  | [] => .ok []
  | e :: rest =>
    match parse_top_expr e with
    | .error err => .error err
    | .ok i =>
      match parse_top_list rest with
      | .error err => .error err
      | .ok is => .ok (i :: is)

/-- `parse_diary_content` (lines 114-119): the root expression must be a
`Tuple`, whose elements become the document items. -/
def parse_diary_content (expr : Expression) : Except DiaryError SourceDoucument :=
  match expr with
  | .Tuple l => (parse_top_list l).map Document.mk
  | _ => .error (.SyntaxError .IllegalElement)

/-! ## The image-resolution pass of `src/main.rs` (lines 178-219)

`ImageConverter::convert_image` performs file I/O (thumbnailing, caching);
it is abstracted as a function argument `conv` from the raw image payload
to either an error or a converted payload, which is exactly the shape
`handle_image_items` consumes it through. -/

/-- The `for item in image.items` loop body of `handle_image_items`
(lines 189-201): convert the payload of each entry, keep its caption, stop at
the first conversion error. -/
def handle_image_entries {E B : Type} (conv : List Nat → Except E B) :
    List (ImageItem (List Nat)) → Except E (List (ImageItem B))
  | [] => .ok []
  | it :: rest =>
    match conv it.data with
    | .error err => .error err
    | .ok path =>
      match handle_image_entries conv rest with
      | .error err => .error err
      | .ok others => .ok (⟨path, it.caption⟩ :: others)

mutual

/-- `handle_image_items` (lines 186-219): an `Images` item has each
payload converted (title and captions kept); a `List` item is rebuilt by
converting its members in order; `Text` and `Header` items are returned
unchanged. -/
def handle_image_items {E B : Type} (conv : List Nat → Except E B) :
    SourceItem → Except E (Item B)
  | .Images title items => (handle_image_entries conv items).map fun is => .Images title is
  | .List li => (handle_image_list conv li).map .List
  | .Text x => .ok (.Text x)
  | .Header x => .ok (.Header x)

/-- The `for item in li` loop of the `Item::List` arm (lines 208-215). -/
def handle_image_list {E B : Type} (conv : List Nat → Except E B) :
    List SourceItem → Except E (List (Item B))
  | [] => .ok []
  | it :: rest =>
    match handle_image_items conv it with
    | .error err => .error err
    | .ok out =>
      match handle_image_list conv rest with
      | .error err => .error err
      | .ok outs => .ok (out :: outs)

end

/-- `handle_image` (lines 178-184): convert every top-level item of the
document. -/
def handle_image {E B : Type} (conv : List Nat → Except E B) (src : SourceDoucument) :
    Except E (Document B) :=
  (handle_image_list conv src.contents).map Document.mk

/-! ## Payload erasure, for stating the frame property of `handle_image` -/

mutual

/-- Replace every image payload with `Unit`, keeping everything else:
two items agree after `erase_item` exactly when they agree on all text,
headers, nesting, order, gallery titles and captions. -/
def erase_item {T : Type} : Item T → Item Unit
  | .Text x => .Text x
  | .Header x => .Header x
  | .List li => .List (erase_item_list li)
  | .Images title items => .Images title (items.map fun it => ⟨(), it.caption⟩)

/-- `erase_item` mapped over a list of items. -/
def erase_item_list {T : Type} : List (Item T) → List (Item Unit)
  | [] => []
  | it :: rest => erase_item it :: erase_item_list rest

end

/-- `erase_item` applied to a whole document. -/
def erase_doc {T : Type} (d : Document T) : Document Unit :=
  ⟨erase_item_list d.contents⟩

/-- The expression form of a well-formed image entry: `(path)` when the
caption is absent, `(path caption)` when present.  Used to state the
round-trip property of `parse_image`. -/
def image_entry_expr (it : ImageItem (List Nat)) : Expression :=
  match it.caption with
  | none => .Tuple [.String it.data]
  | some c => .Tuple [.String it.data, .String c]

/-! ## Shared helper lemmas -/

/-- Decoding the encoded image-entry list succeeds and returns exactly the
entries. -/
theorem parse_image_list_encode (entries : List (ImageItem (List Nat))) :
    parse_image_list (entries.map image_entry_expr) = .ok entries := by
  induction entries with
  | nil => rfl
  | cons it rest ih =>
    obtain ⟨data, caption⟩ := it
    cases caption with
    | none => simp [image_entry_expr, parse_image_list, parse_image_items, ih]
    | some c => simp [image_entry_expr, parse_image_list, parse_image_items, ih]

/-- `handle_image_entries` keeps every caption, in order. -/
theorem handle_image_entries_frame {E B : Type} (conv : List Nat → Except E B) :
    ∀ (items : List (ImageItem (List Nat))) (out : List (ImageItem B)),
      handle_image_entries conv items = .ok out →
      out.map (fun it => (⟨(), it.caption⟩ : ImageItem Unit)) =
        items.map (fun it => (⟨(), it.caption⟩ : ImageItem Unit)) := by
  intro items
  induction items with
  | nil =>
    intro out h
    rw [handle_image_entries] at h
    cases h
    rfl
  | cons it rest ih =>
    intro out h
    rw [handle_image_entries] at h
    split at h
    · exact absurd h (by simp)
    · split at h
      · exact absurd h (by simp)
      · cases h
        simp_all

mutual

/-- `handle_image_items` preserves everything but the image payloads. -/
theorem handle_image_items_frame {E B : Type} (conv : List Nat → Except E B) :
    ∀ (it : SourceItem) (out : Item B),
      handle_image_items conv it = .ok out → erase_item out = erase_item it
  | .Text x, out, h => by
    rw [handle_image_items] at h
    cases h
    rfl
  | .Header x, out, h => by
    rw [handle_image_items] at h
    cases h
    rfl
  | .List li, out, h => by
    rw [handle_image_items] at h
    cases hl : handle_image_list conv li with
    | error e => rw [hl] at h; exact absurd h (by simp [Except.map])
    | ok outs =>
      rw [hl] at h
      simp [Except.map] at h
      cases h
      simp [erase_item, handle_image_list_frame conv li outs hl]
  | .Images title items, out, h => by
    rw [handle_image_items] at h
    cases hi : handle_image_entries conv items with
    | error e => rw [hi] at h; exact absurd h (by simp [Except.map])
    | ok is =>
      rw [hi] at h
      simp [Except.map] at h
      cases h
      simp [erase_item]
      have := handle_image_entries_frame conv items is hi
      simpa using this

/-- `handle_image_list` preserves everything but the image payloads. -/
theorem handle_image_list_frame {E B : Type} (conv : List Nat → Except E B) :
    ∀ (li : List SourceItem) (outs : List (Item B)),
      handle_image_list conv li = .ok outs → erase_item_list outs = erase_item_list li
  | [], outs, h => by
    rw [handle_image_list] at h
    cases h
    rfl
  | it :: rest, outs, h => by
    rw [handle_image_list] at h
    cases hi : handle_image_items conv it with
    | error e => rw [hi] at h; exact absurd h (by simp)
    | ok out =>
      rw [hi] at h
      cases hr : handle_image_list conv rest with
      | error e => rw [hr] at h; exact absurd h (by simp)
      | ok os =>
        rw [hr] at h
        simp at h
        cases h
        simp [erase_item_list, handle_image_items_frame conv it out hi,
          handle_image_list_frame conv rest os hr]

end

/-! ## Claim theorems -/

/-- C1 counterexample: on the input `` `backquoted` `` the reader does not
produce a code-string expression (the `Expression` type of `new_sexp.rs`
has no such variant at all): the backtick is handed back as a bare
terminator character `Chr 0x60` and the rest of the input is left
unread. -/
theorem c1_counterexample :
    parse_expression
        [96, 98, 97, 99, 107, 113, 117, 111, 116, 101, 100, 96] =
      some (.ok (.Chr 96, [98, 97, 99, 107, 113, 117, 111, 116, 101, 100, 96])) := rfl

/-- C1 (amended): the expression reader does not recognise backquoted code
strings; for every input whose first non-whitespace byte is a backtick
(0x60), `parse_expression` returns that byte as a bare terminator
character, consuming only the whitespace and the backtick. -/
theorem c1_backtick_is_bare_terminator (s s1 : List Nat)
    (h : roll_up_and_get s = .ok (0x60, s1)) :
    parse_expression s = some (.ok (.Chr 0x60, s1.tail)) := by
  show parse_expression_fuel (2 * s.length + 1 + 1) s = _
  rw [parse_expression_fuel]
  simp [h]

/-- C1 witness: the amended theorem applied to the `` `backquoted` ``
input. -/
theorem c1_backtick_is_bare_terminator_witness :
    parse_expression [96, 98, 97, 99, 107, 113, 117, 111, 116, 101, 100, 96] =
      some (.ok (.Chr 0x60, [98, 97, 99, 107, 113, 117, 111, 116, 101, 100, 96])) :=
  c1_backtick_is_bare_terminator
    [96, 98, 97, 99, 107, 113, 117, 111, 116, 101, 100, 96]
    [96, 98, 97, 99, 107, 113, 117, 111, 116, 101, 100, 96]
    (by rfl)

/-- C2 counterexample: the digit run `1234567890` followed immediately by
end of input does not parse to `Integer 1234567890`; `parse_number` falls
out of its while-let loop into `UnexpectedEOF`. -/
theorem c2_counterexample :
    parse_expression [49, 50, 51, 52, 53, 54, 55, 56, 57, 48] =
      some (.error (.ParseError .UnexpectedEOF)) := rfl

/-- C2 (amended): a number token needs a terminating byte.  For every
accumulator and every all-digit remainder, `parse_number` hits end of
input and fails with `UnexpectedEOF`; with any non-digit byte after the
digit run it succeeds with the accumulated (wrapping `u32`) value, the
terminator unconsumed.  End of input after a complete delimited token
(such as the empty tuple) is still not an error. -/
theorem c2_number_needs_terminator (acc : Nat) (ds : List Nat)
    (h : ∀ d ∈ ds, 0x30 ≤ d ∧ d ≤ 0x39) :
    parse_number acc ds = .error (.ParseError .UnexpectedEOF) ∧
    (∀ c rest, ¬(0x30 ≤ c ∧ c ≤ 0x39) →
      parse_number acc (ds ++ c :: rest) =
        .ok (.Integer (ds.foldl (fun r d => (r * 10 + (d - 0x30)) % 2 ^ 32) acc),
          c :: rest)) ∧
    parse_expression [40, 41] = some (.ok (.Expression (.Tuple []), [])) := by
  revert h
  induction ds generalizing acc with
  | nil =>
    intro h
    refine ⟨rfl, ?_, rfl⟩
    intro c rest hc
    rw [List.nil_append, parse_number]
    simp [hc]
  | cons d ds2 ih =>
    intro h
    have hd := h d (by simp)
    have hrest : ∀ b ∈ ds2, 0x30 ≤ b ∧ b ≤ 0x39 := fun b hb => h b (by simp [hb])
    refine ⟨?_, ?_, rfl⟩
    · rw [parse_number]
      simp [hd]
      exact (ih _ hrest).1
    · intro c rest hc
      rw [List.cons_append, parse_number]
      simp [hd]
      exact (ih _ hrest).2.1 c rest hc

/-- C2 witness: the amended theorem applied to the digits of
`1234567890` with a space terminator. -/
theorem c2_number_needs_terminator_witness :
    parse_number 1 [50, 51, 52, 53, 54, 55, 56, 57, 48] =
      .error (.ParseError .UnexpectedEOF) ∧
    parse_number 1 [50, 51, 52, 53, 54, 55, 56, 57, 48, 32] =
      .ok (.Integer 1234567890, [32]) :=
  ⟨(c2_number_needs_terminator 1 [50, 51, 52, 53, 54, 55, 56, 57, 48] (by decide)).1,
   (c2_number_needs_terminator 1 [50, 51, 52, 53, 54, 55, 56, 57, 48] (by decide)).2.1
     32 [] (by decide)⟩

/-- C3 counterexample: on the input `ab) ` the closing parenthesis does
not end the literal; it is accumulated into it, and the literal ends only
at the space: the result is `Literal "ab)"`. -/
theorem c3_counterexample :
    parse_expression [97, 98, 41, 32] =
      some (.ok (.Expression (.Literal [97, 98, 41]), [32])) := rfl

/-- C3 (amended): a literal is terminated only by ASCII whitespace, not by
every non-alphanumeric byte: `parse_literal` accumulates every
non-whitespace byte (alphanumeric or not) and stops, without consuming it,
at the first whitespace byte, validating the accumulated bytes as UTF-8. -/
theorem c3_literal_ends_only_at_whitespace (acc pre rest : List Nat) (c : Nat)
    (hpre : ∀ b ∈ pre, is_ws b = false) (hc : is_ws c = true) :
    parse_literal acc (pre ++ c :: rest) =
      if validUtf8 (acc ++ pre) then .ok (.Literal (acc ++ pre), c :: rest)
      else .error .Utf8Error := by
  induction pre generalizing acc with
  | nil => simp [parse_literal, hc]
  | cons b bs ih =>
    have hb := hpre b (by simp)
    rw [List.cons_append, parse_literal]
    simp [hb]
    rw [ih (acc ++ [b]) (fun x hx => hpre x (by simp [hx]))]
    simp

/-- C3 witness: the amended theorem applied to the `ab) ` input, with the
initial byte `a` already consumed. -/
theorem c3_literal_ends_only_at_whitespace_witness :
    parse_literal [97] [98, 41, 32] = .ok (.Literal [97, 98, 41], [32]) :=
  c3_literal_ends_only_at_whitespace [97] [98, 41] [] 32 (by decide) (by decide)

/-- C4 counterexample: an empty tuple where an item is expected does not
fail with `MissingOperator`; it fails with `IllegalElement` (the
`missing_operator` helper of `diary_content.rs` returns
`SyntaxError::IllegalElement`). -/
theorem c4_counterexample :
    parse_top_expr (.Tuple []) = .error (.SyntaxError .IllegalElement) := rfl

/-- C4 (amended): an empty tuple where an item, a list item or a text span
is expected, and a tuple whose first element is present but is not a
`Literal`, all fail with the same error `IllegalElement`; the resolver
produces neither `MissingOperator` (the variant exists but the
`missing_operator` helper returns `IllegalElement`) nor any
`OperatorNotLiteral` error (no such variant exists). -/
theorem c4_operator_errors_collapse_to_illegal_element :
    parse_top_expr (.Tuple []) = .error (.SyntaxError .IllegalElement) ∧
    parse_text_item (.Tuple []) = .error (.SyntaxError .IllegalElement) ∧
    parse_list_item (.Tuple []) = .error (.SyntaxError .IllegalElement) ∧
    (∀ (e : Expression) (rest : List Expression), (∀ l, e ≠ .Literal l) →
      parse_top_expr (.Tuple (e :: rest)) = .error (.SyntaxError .IllegalElement)) ∧
    (∀ (e : Expression) (rest : List Expression), (∀ l, e ≠ .Literal l) →
      parse_text_item (.Tuple (e :: rest)) = .error (.SyntaxError .IllegalElement)) ∧
    (∀ (e : Expression) (rest : List Expression), (∀ l, e ≠ .Literal l) →
      parse_list_item (.Tuple (e :: rest)) = .error (.SyntaxError .IllegalElement)) := by
  refine ⟨rfl, rfl, rfl, ?_, ?_, ?_⟩ <;>
    · intro e rest h
      cases e with
      | Literal l => exact absurd rfl (h l)
      | Tuple t => rfl
      | String s => rfl
      | Integer n => rfl

/-- C4 witness: the amended theorem applied to a tuple headed by the
integer 5. -/
theorem c4_operator_errors_collapse_to_illegal_element_witness :
    parse_top_expr (.Tuple [.Integer 5]) = .error (.SyntaxError .IllegalElement) :=
  c4_operator_errors_collapse_to_illegal_element.2.2.2.1 (.Integer 5) []
    (fun l h => Expression.noConfusion h)

/-- C5: header dispatch has strict arity one.  Resolving the document
`((h "Title"))` yields `Document [Header "Title"]` for every title string;
`(h "A" "B")` fails with `OperandMismatch` (the code name of the
`OperandCountMismatch` of the specification); `(h)` fails with
`OperandMismatch`; `(header 5)` fails with `IllegalElement` (wrong operand
variant, not wrong arity). -/
theorem c5_header_strict_arity :
    (∀ s, parse_diary_content (.Tuple [.Tuple [.Literal kw_h, .String s]]) =
      .ok ⟨[.Header s]⟩) ∧
    (∀ s1 s2, parse_diary_content (.Tuple [.Tuple [.Literal kw_h, .String s1, .String s2]]) =
      .error (.SyntaxError .OperandMismatch)) ∧
    parse_diary_content (.Tuple [.Tuple [.Literal kw_h]]) =
      .error (.SyntaxError .OperandMismatch) ∧
    parse_diary_content (.Tuple [.Tuple [.Literal kw_header, .Integer 5]]) =
      .error (.SyntaxError .IllegalElement) :=
  ⟨fun s => rfl, fun s1 s2 => rfl, rfl, rfl⟩

/-- C6 counterexample: a header tuple nested inside a list does not fail
with `IllegalElement`: the list-item dispatch table has no header keyword,
so `(li (h "x"))` fails with `UnknownOperator "h"`. -/
theorem c6_counterexample :
    parse_diary_content
        (.Tuple [.Tuple [.Literal kw_li, .Tuple [.Literal kw_h, .String [120]]]]) =
      .error (.SyntaxError (.UnknownOperator kw_h)) := rfl

/-- C6 (amended): a header tuple nested inside a list is invalid, but the
failure is `UnknownOperator` with the header keyword, not `IllegalElement`:
`parse_list_item` dispatches only on `txt`, `text`, `li`, `list`, `img`
and `image`, so a tuple headed by `h` or `header` with any operands falls
through to `unknown_operator`. -/
theorem c6_header_in_list_is_unknown_operator :
    (∀ rand, parse_list_item (.Tuple (.Literal kw_h :: rand)) =
      .error (.SyntaxError (.UnknownOperator kw_h))) ∧
    (∀ rand, parse_list_item (.Tuple (.Literal kw_header :: rand)) =
      .error (.SyntaxError (.UnknownOperator kw_header))) :=
  ⟨fun rand => rfl, fun rand => rfl⟩

/-- C7: inside a double-quoted string no byte is structural.  Parsing the
quoted input `"TestString1234567890!@#$%^&*()_+|~"` yields exactly that
`String` (parentheses included), and a backslash followed by any byte
other than backslash or double quote is `UnexpectedCharacter` with that
byte. -/
theorem c7_string_no_structural_bytes :
    parse_expression
        ([34] ++ [84, 101, 115, 116, 83, 116, 114, 105, 110, 103,
          49, 50, 51, 52, 53, 54, 55, 56, 57, 48,
          33, 64, 35, 36, 37, 94, 38, 42, 40, 41, 95, 43, 124, 126] ++ [34]) =
      some (.ok (.Expression (.String
        [84, 101, 115, 116, 83, 116, 114, 105, 110, 103,
         49, 50, 51, 52, 53, 54, 55, 56, 57, 48,
         33, 64, 35, 36, 37, 94, 38, 42, 40, 41, 95, 43, 124, 126]), [])) ∧
    (∀ (acc rest : List Nat) (c : Nat), c ≠ 0x5c → c ≠ 0x22 →
      parse_string acc (0x5c :: c :: rest) =
        .error (.ParseError (.UnexpectedCharacter c))) := by
  refine ⟨rfl, ?_⟩
  intro acc rest c h1 h2
  rw [parse_string]
  simp [h1, h2]

/-- C7 witness: the escape clause applied to the escaped byte `n`
(0x6e). -/
theorem c7_string_no_structural_bytes_witness :
    parse_string [] [0x5c, 110, 34] =
      .error (.ParseError (.UnexpectedCharacter 110)) :=
  c7_string_no_structural_bytes.2 [] [34] 110 (by decide) (by decide)

/-- C8: image tuples resolve exactly as specified.  With a `String` title
and well-formed entry tuples (`(path)` or `(path caption)`), `parse_image`
returns the `Images` item with that title and those entries (caption
absent when the inner tuple has one element); a non-`String` first
operand, a non-`String` path and a non-`String` caption each fail with
`IllegalElement`. -/
theorem c8_image_tuple_resolution :
    (∀ title entries,
      parse_image (.String title :: entries.map image_entry_expr) =
        .ok (.Images title entries)) ∧
    (∀ (e : Expression) (es : List Expression), (∀ s, e ≠ .String s) →
      parse_image (e :: es) = .error (.SyntaxError .IllegalElement)) ∧
    (∀ (e : Expression) (rest : List Expression), (∀ s, e ≠ .String s) →
      parse_image_items (.Tuple (e :: rest)) = .error (.SyntaxError .IllegalElement)) ∧
    (∀ (p : List Nat) (e : Expression) (rest : List Expression), (∀ s, e ≠ .String s) →
      parse_image_items (.Tuple (.String p :: e :: rest)) =
        .error (.SyntaxError .IllegalElement)) := by
  refine ⟨?_, ?_, ?_, ?_⟩
  · intro title entries
    simp [parse_image, parse_image_list_encode, Except.map]
  · intro e es h
    cases e with
    | String s => exact absurd rfl (h s)
    | Tuple t => rfl
    | Literal l => rfl
    | Integer n => rfl
  · intro e rest h
    cases e with
    | String s => exact absurd rfl (h s)
    | Tuple t => rfl
    | Literal l => rfl
    | Integer n => rfl
  · intro p e rest h
    cases e with
    | String s => exact absurd rfl (h s)
    | Tuple t => rfl
    | Literal l => rfl
    | Integer n => rfl

/-- C8 witness: the round-trip clause at a two-entry gallery and the
wrong-variant caption clause at an integer caption. -/
theorem c8_image_tuple_resolution_witness :
    parse_image [.String [116], .Tuple [.String [112]],
        .Tuple [.String [113], .String [99]]] =
      .ok (.Images [116] [⟨[112], none⟩, ⟨[113], some [99]⟩]) ∧
    parse_image_items (.Tuple [.String [112], .Integer 3]) =
      .error (.SyntaxError .IllegalElement) :=
  ⟨c8_image_tuple_resolution.1 [116] [⟨[112], none⟩, ⟨[113], some [99]⟩],
   c8_image_tuple_resolution.2.2.2 [112] (.Integer 3) []
     (fun s h => Expression.noConfusion h)⟩

/-- C9: resolution is a pure, deterministic function of its input: for
every pair of structurally equal `Expression` trees, `parse_diary_content`
yields the same result (the same error or structurally equal documents). -/
theorem c9_resolution_deterministic (e1 e2 : Expression) (h : e1 = e2) :
    parse_diary_content e1 = parse_diary_content e2 :=
  congrArg parse_diary_content h

/-- C9 witness: determinism at the empty document. -/
theorem c9_resolution_deterministic_witness :
    parse_diary_content (.Tuple []) = parse_diary_content (.Tuple []) :=
  c9_resolution_deterministic (.Tuple []) (.Tuple []) rfl

/-- C10: the image-resolution pass only replaces image payloads.  Whenever
`handle_image` succeeds, erasing the image payloads from its output gives
back the input with its payloads erased: every `Text` and `Header` item is
unchanged, item order and `List` nesting are preserved, and every `Images`
title and every entry caption is unchanged — only the `data` field of each
image entry may differ. -/
theorem c10_handle_image_frame {E B : Type} (conv : List Nat → Except E B)
    (src : SourceDoucument) (out : Document B)
    (h : handle_image conv src = .ok out) :
    erase_doc out = erase_doc src := by
  rw [handle_image] at h
  cases hl : handle_image_list conv src.contents with
  | error e => rw [hl] at h; exact absurd h (by simp [Except.map])
  | ok outs =>
    rw [hl] at h
    simp [Except.map] at h
    cases h
    simp [erase_doc, handle_image_list_frame conv src.contents outs hl]

/-- C10 witness: the frame theorem applied to a concrete converter (byte
length of the path) and a document with a header, a nested list with a
gallery, and a paragraph. -/
theorem c10_handle_image_frame_witness :
    erase_doc (⟨[.Header [104],
        .List [.Images [116] [⟨3, some [99]⟩], .Text [.RawString [120]]],
        .Images [117] [⟨1, none⟩]]⟩ : Document Nat) =
      erase_doc (⟨[.Header [104],
        .List [.Images [116] [⟨[112, 110, 103], some [99]⟩], .Text [.RawString [120]]],
        .Images [117] [⟨[113], none⟩]]⟩ : SourceDoucument) :=
  c10_handle_image_frame (E := Unit) (fun s => .ok s.length)
    ⟨[.Header [104],
      .List [.Images [116] [⟨[112, 110, 103], some [99]⟩], .Text [.RawString [120]]],
      .Images [117] [⟨[113], none⟩]]⟩
    ⟨[.Header [104],
      .List [.Images [116] [⟨3, some [99]⟩], .Text [.RawString [120]]],
      .Images [117] [⟨1, none⟩]]⟩
    (by rfl)

end Shdiary
